import Mathlib

/-!
Verification of the zeitwise detox pipeline against its specification.

The definitions below are a shallow embedding of the Python code in
`services/backend/app/services/detox/pipeline.py`,
`services/backend/app/services/vector.py` and
`services/backend/app/services/llm_router.py`.

External collaborators (the spaCy recognizer, the sentence-transformers
encoder, the Qdrant index, the LLM backends, the Celery queue and the
database commit) are modelled as oracle inputs gathered in an `Env`
record: the repository code under verification is the control flow that
consumes their outcomes.  Python `str` values are Lean `String`s and
Python `float`s are Lean `Rat`s (the pipeline only ever compares and
stores them, so exact rationals are a faithful carrier).
-/

namespace Zeitwise

/-- Python `s[a:b]` on a string with `0 ≤ a ≤ b`: the characters at
indices `a, …, b-1`, clamped to the length of `s` (Python slicing is
by code point and clamps out-of-range bounds). -/
def pySlice (s : String) (a b : Nat) : String :=
  String.mk ((s.toList.drop a).take (b - a))

/-- Python `s[a:]`: drop the first `a` characters. -/
def pyDrop (s : String) (a : Nat) : String :=
  String.mk (s.toList.drop a)

/-- Python `s.strip()`: remove leading and trailing whitespace. -/
def pyStrip (s : String) : String :=
  String.mk (((s.toList.dropWhile Char.isWhitespace).reverse.dropWhile
    Char.isWhitespace).reverse)

/-- Helper for `pySplit`: accumulates the current word (reversed) while
scanning the character list. -/
def splitWsAux : List Char → List Char → List (List Char)
  | [], acc => if acc.isEmpty then [] else [acc.reverse]
  | c :: cs, acc =>
    if c.isWhitespace then
      if acc.isEmpty then splitWsAux cs [] else acc.reverse :: splitWsAux cs []
    else splitWsAux cs (c :: acc)

/-- Python `s.split()` with no argument: split on runs of whitespace,
discarding empty words. -/
def pySplit (s : String) : List (List Char) :=
  splitWsAux s.toList []

/-- A spaCy entity span as the recognizer reports it: surface text,
label, and character offsets `start_char`/`end_char` into the document
text (`stop` stands for the Python attribute `end_char`; `end` is a
Lean keyword). -/
structure Ent where
  text : String
  label : String
  start : Nat
  stop : Nat
deriving DecidableEq, Repr

/-- One record of the `entities` list built by
`DetoxPipeline.mask_entities`: the dict with keys
`text, label, mask, start, end` (again `stop` stands for the key
`end`). -/
structure EntityRec where
  text : String
  label : String
  mask : String
  start : Nat
  stop : Nat
deriving DecidableEq, Repr

/-- `DetoxPipeline.entity_types`, set in `__init__`. -/
def entity_types : List String :=
  ["PERSON", "ORG", "GPE", "LOC", "PRODUCT", "EVENT", "WORK_OF_ART"]

/-- One iteration of the loop body of `DetoxPipeline.mask_entities`:
if the entity label is retained, splice the placeholder into the
current working text at the original offsets of the entity and append the
entity record; otherwise leave the state unchanged. -/
def maskStep (st : String × List EntityRec) (e : Ent) : String × List EntityRec :=
  if e.label ∈ entity_types then
    let mask := "[" ++ e.label ++ "_" ++ toString (st.2.length + 1) ++ "]"
    (pySlice st.1 0 e.start ++ mask ++ pyDrop st.1 e.stop,
     st.2 ++ [⟨e.text, e.label, mask, e.start, e.stop⟩])
  else st

/-- `DetoxPipeline.mask_entities`: sort the recognized entities by
start offset in reverse (the Python builtin `sorted` is stable, modelled by
`List.insertionSort`), then substitute placeholders from the rightmost
entity to the leftmost, collecting the entity records. -/
def mask_entities (text : String) (ents : List Ent) : String × List EntityRec :=
  (List.insertionSort (fun a b => b.start ≤ a.start) ents).foldl maskStep (text, [])

/-- Every record produced by the masking fold either was already in the
accumulator or copies its `text`, `start` and `stop` fields verbatim
from one of the entities in the list. -/
theorem maskFold_records (l : List Ent) :
    ∀ st r, r ∈ (l.foldl maskStep st).2 →
      r ∈ st.2 ∨ ∃ e ∈ l, r.text = e.text ∧ r.start = e.start ∧ r.stop = e.stop := by
  induction l with
  | nil => intro st r hr; exact Or.inl hr
  | cons e l ih =>
    intro st r hr
    rcases ih (maskStep st e) r hr with h | ⟨e', he', h⟩
    · unfold maskStep at h
      by_cases hl : e.label ∈ entity_types
      · rw [if_pos hl] at h
        rcases List.mem_append.mp h with h | h
        · exact Or.inl h
        · rcases List.mem_singleton.mp h with rfl
          exact Or.inr ⟨e, List.mem_cons_self e l, rfl, rfl, rfl⟩
      · rw [if_neg hl] at h
        exact Or.inl h
    · exact Or.inr ⟨e', List.mem_cons_of_mem e he', h⟩

/-- Claim C2: entity masking is offset-safe.  For every input text and
every non-overlapping family of recognized entities (spaCy guarantees
that the surface text of each reported span is the slice of the document at
its `start_char`/`end_char` offsets), each record returned by
`mask_entities` satisfies `original_text[start:end] == record.text`:
the recorded offsets refer to the original, unmasked text. -/
theorem mask_entities_offset_safe (text : String) (ents : List Ent)
    (hspan : ∀ e ∈ ents, pySlice text e.start e.stop = e.text)
    (hsep : List.Pairwise (fun a b => a.stop ≤ b.start ∨ b.stop ≤ a.start) ents) :
    ∀ r ∈ (mask_entities text ents).2, pySlice text r.start r.stop = r.text := by
  intro r hr
  rcases maskFold_records _ _ r hr with h | ⟨e, he, ht, hs, hp⟩
  · exact absurd h (List.not_mem_nil r)
  · rw [ht, hs, hp]
    exact hspan e ((List.perm_insertionSort _ ents).mem_iff.mp he)

/-- Witness for C2 at a concrete input: two person entities in
"Alice met Bob"; the record for "Alice" (substituted second, hence
numbered 2) reproduces the original slice at offsets 0–5. -/
theorem mask_entities_offset_safe_witness :
    pySlice "Alice met Bob" 0 5 = "Alice" :=
  mask_entities_offset_safe "Alice met Bob"
    [⟨"Alice", "PERSON", 0, 5⟩, ⟨"Bob", "PERSON", 10, 13⟩]
    (by decide) (by decide)
    ⟨"Alice", "PERSON", "[PERSON_2]", 0, 5⟩ (by decide)

/-- Claim C9 (counterexample): in the string
"AI takes over the world, says expert John Doe" the substring
"John Doe" occupies offsets 37–45, not 35–43 as the claim states: the
slice at 37–45 is "John Doe", the slice at 35–43 is not, and masking
the genuine recognizer span does not produce the claimed record. -/
theorem mask_entities_example_counterexample :
    pySlice "AI takes over the world, says expert John Doe" 37 45 = "John Doe" ∧
    pySlice "AI takes over the world, says expert John Doe" 35 43 ≠ "John Doe" ∧
    (mask_entities "AI takes over the world, says expert John Doe"
        [⟨"John Doe", "PERSON", 37, 45⟩]).2 ≠
      [⟨"John Doe", "PERSON", "[PERSON_1]", 35, 43⟩] := by
  decide

/-- Claim C9 (amended): with the person entity "John Doe" recognized at
its true offsets 37–45, masking returns the expected masked text and
the record with `start := 37` and `end := 45`. -/
theorem mask_entities_example :
    mask_entities "AI takes over the world, says expert John Doe"
        [⟨"John Doe", "PERSON", 37, 45⟩] =
      ("AI takes over the world, says expert [PERSON_1]",
       [⟨"John Doe", "PERSON", "[PERSON_1]", 37, 45⟩]) := by
  decide

/-- A JSON value as `json.loads` produces it: `None`, `bool`, a number
(Python `int`/`float`, carried as `Rat`), `str`, `list`, or `dict`
(an association list; JSON objects are assumed to have distinct keys,
as Python keeps only the last duplicate). -/
inductive Json where
  | null : Json
  | bool (b : Bool) : Json
  | num (q : Rat) : Json
  | str (s : String) : Json
  | arr (elems : List Json) : Json
  | obj (fields : List (String × Json)) : Json

/-- Python `d.get(key)` on a dict: the value at `key`, if present. -/
def jsonLookup (kvs : List (String × Json)) (k : String) : Option Json :=
  (kvs.find? (fun p => p.1 == k)).map (fun p => p.2)

/-- Helper: the numeric value of a list of decimal digit characters. -/
def digitsVal : List Char → Nat → Option Nat
  | [], acc => some acc
  | c :: cs, acc =>
    if c.isDigit then digitsVal cs (acc * 10 + (c.toNat - 48)) else none

/-- Models the Python builtin `float(s)` on a string, for plain decimal
literals: optional surrounding whitespace, an optional sign, digits
with an optional fractional part.  Exponent notation and the
`inf`/`nan` spellings accepted by Python are not modelled (they never
arise in the claims below); every unmodelled form is `none`, as is
every string Python rejects with `ValueError`. -/
def pyFloatOfString (s : String) : Option Rat :=
  let cs := (pyStrip s).toList
  let body := match cs with
    | '-' :: r => r
    | '+' :: r => r
    | r => r
  let sgn : Rat := match cs with
    | '-' :: _ => -1
    | _ => 1
  let ip := body.takeWhile Char.isDigit
  match body.dropWhile Char.isDigit with
  | [] =>
    if ip.isEmpty then none
    else (digitsVal ip 0).map (fun n => sgn * (n : Rat))
  | '.' :: fp =>
    if fp.all Char.isDigit && !(ip.isEmpty && fp.isEmpty) then
      match digitsVal ip 0, digitsVal fp 0 with
      | some i, some f => some (sgn * ((i : Rat) + mkRat f (10 ^ fp.length)))
      | _, _ => none
    else none
  | _ => none

/-- Models the Python builtin `float(x)` applied to a decoded JSON
value: numbers pass through, booleans become 0/1 (`bool` is an `int`
subclass), numeric strings parse, and every other value raises
`TypeError` (modelled as `none`). -/
def pyFloat : Json → Option Rat
  | Json.num q => some q
  | Json.bool b => some (if b then 1 else 0)
  | Json.str s => pyFloatOfString s
  | _ => none

/-- Python truthiness of a decoded JSON value, as used by the
`analysis.get("is_sensational", False)` tests. -/
def pyTruthy : Json → Bool
  | Json.null => false
  | Json.bool b => b
  | Json.num q => if q = 0 then false else true
  | Json.str s => !s.isEmpty
  | Json.arr elems => !elems.isEmpty
  | Json.obj fields => !fields.isEmpty

/-- The dict returned by `DetoxPipeline.analyze_with_llm`: the raw
JSON values stored under the four keys, except `confidence`, which the
code coerces with `float(...)`. -/
structure AnalysisDict where
  analysis : Json
  is_sensational : Json
  confidence : Rat
  key_points : Json

/-- The fixed fallback dict returned by the `except` branch of
`DetoxPipeline.analyze_with_llm`. -/
def fallback_analysis : AnalysisDict :=
  { analysis := Json.str "Unable to generate analysis due to an error.",
    is_sensational := Json.bool false,
    confidence := 0,
    key_points := Json.arr [] }

/-- The combined outcome of `llm_generate(...)` and
`json.loads(response.content)`, both external calls: the generation
call raised, or its content failed to parse as JSON, or it parsed to
the given value. -/
inductive LLMResult where
  | callFailed : LLMResult
  | unparseable (raw : String) : LLMResult
  | parsed (value : Json) : LLMResult

/-- The dict-reading body of `DetoxPipeline.analyze_with_llm`: read
the four fields with `result.get` defaults (the empty string, `False`,
`0.5`, `[]`) and coerce `confidence` with `float(...)`; when that
coercion raises (a non-convertible value), control lands in the
`except` branch, which returns the fixed fallback dict. -/
def analyzeObj (kvs : List (String × Json)) : AnalysisDict :=
  match pyFloat ((jsonLookup kvs "confidence").getD (Json.num (mkRat 1 2))) with
  | some c =>
    { analysis := (jsonLookup kvs "analysis").getD (Json.str ""),
      is_sensational := (jsonLookup kvs "is_sensational").getD (Json.bool false),
      confidence := c,
      key_points := (jsonLookup kvs "key_points").getD (Json.arr []) }
  | none => fallback_analysis

/-- `DetoxPipeline.analyze_with_llm`, top level: a successfully parsed
JSON dict is read by `analyzeObj`; every other outcome (the LLM call
raising, unparseable content, or `.get` on a non-dict value raising
`AttributeError`) lands in the `except` branch and yields the fixed
fallback dict. -/
def analyze_with_llm (llm : LLMResult) : AnalysisDict :=
  match llm with
  | LLMResult.parsed (Json.obj kvs) => analyzeObj kvs
  | _ => fallback_analysis

/-- Claim C1 (code evaluated at the failing input): when the LLM
response content parses to the JSON object with the single field
`confidence = 1.5`, `analyze_with_llm` returns confidence 3/2 — a
value strictly above 1 is passed through unclamped, contradicting the
specified invariant that confidence is clamped to the interval from 0
to 1. -/
theorem analyze_with_llm_confidence_unclamped :
    (analyze_with_llm (LLMResult.parsed
        (Json.obj [("confidence", Json.num (mkRat 3 2))]))).confidence = mkRat 3 2
    ∧ ¬ (mkRat 3 2 ≤ (1 : Rat)) :=
  ⟨rfl, by decide⟩

/-- Claim C4: on any failure of the LLM call, and on any response
content that fails to parse as JSON, `analyze_with_llm` does not raise
and returns exactly the fixed fallback dict. -/
theorem analyze_with_llm_fallback_on_failure :
    analyze_with_llm LLMResult.callFailed = fallback_analysis ∧
    (∀ raw : String, analyze_with_llm (LLMResult.unparseable raw) = fallback_analysis) :=
  ⟨rfl, fun _ => rfl⟩

/-- Claim C10 (counterexample): for the response content parsing to
the JSON object with the single field `confidence = null`, the key
`analysis` is missing, yet the stage returns the failure fallback
(because `float(None)` raises), whose `analysis` field is not the
empty string the claim promises for a missing `analysis` key. -/
theorem analyze_with_llm_defaults_counterexample :
    analyze_with_llm (LLMResult.parsed (Json.obj [("confidence", Json.null)]))
      = fallback_analysis ∧
    jsonLookup [("confidence", Json.null)] "analysis" = none ∧
    fallback_analysis.analysis ≠ Json.str "" := by
  refine ⟨rfl, rfl, ?_⟩
  intro h
  injection h with h
  exact absurd h (by decide)

/-- Claim C10 (amended): for every LLM response whose content parses
as a JSON object in which the `confidence` value, when present, is a
number, each missing field is filled with its per-field default — a
missing `analysis` yields the empty string, a missing
`is_sensational` yields `false`, a missing `key_points` yields `[]`,
and a missing `confidence` yields 0.5, so the result differs from the
failure fallback (whose confidence is 0).  (When a present
`confidence` fails the `float(...)` coercion, the whole failure
fallback is returned instead.) -/
theorem analyze_with_llm_missing_field_defaults (kvs : List (String × Json))
    (hconf : jsonLookup kvs "confidence" = none ∨
      ∃ q, jsonLookup kvs "confidence" = some (Json.num q)) :
    (jsonLookup kvs "analysis" = none →
      (analyze_with_llm (LLMResult.parsed (Json.obj kvs))).analysis = Json.str "") ∧
    (jsonLookup kvs "is_sensational" = none →
      (analyze_with_llm (LLMResult.parsed (Json.obj kvs))).is_sensational = Json.bool false) ∧
    (jsonLookup kvs "key_points" = none →
      (analyze_with_llm (LLMResult.parsed (Json.obj kvs))).key_points = Json.arr []) ∧
    (jsonLookup kvs "confidence" = none →
      (analyze_with_llm (LLMResult.parsed (Json.obj kvs))).confidence = mkRat 1 2 ∧
      analyze_with_llm (LLMResult.parsed (Json.obj kvs)) ≠ fallback_analysis) := by
  have hred : ∃ c : Rat,
      (jsonLookup kvs "confidence" = none → c = mkRat 1 2) ∧
      analyze_with_llm (LLMResult.parsed (Json.obj kvs)) =
        { analysis := (jsonLookup kvs "analysis").getD (Json.str ""),
          is_sensational := (jsonLookup kvs "is_sensational").getD (Json.bool false),
          confidence := c,
          key_points := (jsonLookup kvs "key_points").getD (Json.arr []) } := by
    rcases hconf with h | ⟨q, h⟩
    · exact ⟨mkRat 1 2, fun _ => rfl,
        by show analyzeObj kvs = _; unfold analyzeObj; rw [h]; rfl⟩
    · refine ⟨q, fun hc => ?_,
        by show analyzeObj kvs = _; unfold analyzeObj; rw [h]; rfl⟩
      rw [h] at hc
      exact Option.noConfusion hc
  rcases hred with ⟨c, hc12, hred⟩
  refine ⟨fun ha => ?_, fun hs => ?_, fun hk => ?_, fun hcn => ?_⟩
  · rw [hred, ha]; rfl
  · rw [hred, hs]; rfl
  · rw [hred, hk]; rfl
  · refine ⟨?_, ?_⟩
    · rw [hred]; exact hc12 hcn
    · rw [hred]
      intro he
      have hcc : c = fallback_analysis.confidence :=
        congrArg AnalysisDict.confidence he
      rw [hc12 hcn] at hcc
      exact absurd hcc (by decide)

/-- Witness for C10 (amended) at the empty JSON object: every field is
missing, so the result carries the per-field defaults, in particular
confidence 0.5 and the empty analysis string. -/
theorem analyze_with_llm_missing_field_defaults_witness :
    (analyze_with_llm (LLMResult.parsed (Json.obj []))).confidence = mkRat 1 2 ∧
    (analyze_with_llm (LLMResult.parsed (Json.obj []))).analysis = Json.str "" :=
  ⟨((analyze_with_llm_missing_field_defaults [] (Or.inl rfl)).2.2.2 rfl).1,
   (analyze_with_llm_missing_field_defaults [] (Or.inl rfl)).1 rfl⟩

/-- `LLMRouter.calculate_profanity_score`.  The profanity detector
(`better_profanity.profanity.contains_profanity`) is an external
library call, passed in as an oracle.  An empty stripped text returns
0.0; the `if not words` branch repeats the Python code even though it
is unreachable once the strip check has passed; otherwise a detected
profanity yields 0.8 and a clean text 0.1. -/
def calculate_profanity_score (containsProfanity : String → Bool) (text : String) : Rat :=
  if pyStrip text = "" then 0
  else if (pySplit text).isEmpty then 0
  else if containsProfanity text then mkRat 8 10 else mkRat 1 10

/-- The accumulator-carrying split never returns the empty list when
the accumulator is non-empty. -/
theorem splitWsAux_ne_nil_of_acc (cs : List Char) :
    ∀ acc : List Char, acc ≠ [] → splitWsAux cs acc ≠ [] := by
  induction cs with
  | nil =>
    intro acc hacc
    unfold splitWsAux
    rw [if_neg (by simpa [List.isEmpty_iff] using hacc)]
    exact List.cons_ne_nil _ _
  | cons c cs ih =>
    intro acc hacc
    unfold splitWsAux
    by_cases hw : c.isWhitespace
    · rw [if_pos hw, if_neg (by simpa [List.isEmpty_iff] using hacc)]
      exact List.cons_ne_nil _ _
    · rw [if_neg hw]
      exact ih (c :: acc) (List.cons_ne_nil c acc)

/-- If the scanned characters contain a non-whitespace character, the
split is non-empty, whatever the accumulator. -/
theorem splitWsAux_ne_nil (cs : List Char) :
    ∀ acc : List Char, (∃ c ∈ cs, ¬ c.isWhitespace) → splitWsAux cs acc ≠ [] := by
  induction cs with
  | nil =>
    intro acc h
    rcases h with ⟨c, hc, _⟩
    exact absurd hc (List.not_mem_nil c)
  | cons c cs ih =>
    intro acc h
    unfold splitWsAux
    by_cases hw : c.isWhitespace
    · rw [if_pos hw]
      have hcs : ∃ d ∈ cs, ¬ d.isWhitespace := by
        rcases h with ⟨d, hd, hdw⟩
        rcases List.mem_cons.mp hd with rfl | hd'
        · exact absurd hw hdw
        · exact ⟨d, hd', hdw⟩
      by_cases ha : acc.isEmpty
      · rw [if_pos ha]; exact ih [] hcs
      · rw [if_neg ha]; exact List.cons_ne_nil _ _
    · rw [if_neg hw]
      exact splitWsAux_ne_nil_of_acc cs (c :: acc) (List.cons_ne_nil c acc)

/-- A string whose `strip()` is non-empty contains a non-whitespace
character. -/
theorem exists_nonws_of_pyStrip_ne (s : String) (h : pyStrip s ≠ "") :
    ∃ c ∈ s.toList, ¬ c.isWhitespace := by
  by_contra hall
  push_neg at hall
  apply h
  unfold pyStrip
  have h1 : s.toList.dropWhile Char.isWhitespace = [] :=
    List.dropWhile_eq_nil_iff.mpr (fun c hc => hall c hc)
  rw [h1]
  rfl

/-- Claim C8 (counterexample): for the empty prompt the profanity
score is 0.0, which is neither 0.1 nor 0.8, whatever the profanity
detector answers — the score is not two-valued over all prompts. -/
theorem calculate_profanity_score_counterexample :
    calculate_profanity_score (fun _ => true) "" = 0 ∧
    calculate_profanity_score (fun _ => false) "" = 0 ∧
    ¬ ((0 : Rat) = mkRat 1 10 ∨ (0 : Rat) = mkRat 8 10) := by
  refine ⟨rfl, rfl, ?_⟩
  decide

/-- Claim C8 (amended): for every prompt whose whitespace-stripped
form is non-empty, the profanity score is two-valued: 0.8 when the
profanity detector finds a profane token and 0.1 otherwise, so on such
prompts the score always lies in the set of 0.1 and 0.8; prompts that
strip to the empty string score 0.0 instead. -/
theorem calculate_profanity_score_two_valued
    (containsProfanity : String → Bool) (text : String)
    (h : pyStrip text ≠ "") :
    calculate_profanity_score containsProfanity text
      = (if containsProfanity text then mkRat 8 10 else mkRat 1 10) ∧
    (calculate_profanity_score containsProfanity text = mkRat 1 10 ∨
     calculate_profanity_score containsProfanity text = mkRat 8 10) := by
  have hsplit : ¬ (pySplit text).isEmpty := by
    rw [List.isEmpty_iff]
    exact splitWsAux_ne_nil text.toList [] (exists_nonws_of_pyStrip_ne text h)
  have heq : calculate_profanity_score containsProfanity text
      = (if containsProfanity text then mkRat 8 10 else mkRat 1 10) := by
    unfold calculate_profanity_score
    rw [if_neg h, if_neg hsplit]
  refine ⟨heq, ?_⟩
  rw [heq]
  by_cases hp : containsProfanity text
  · right; rw [if_pos hp]
  · left; rw [if_neg hp]

/-- Witness for C8 (amended): the prompt "hello" with a detector that
reports no profanity scores exactly 0.1. -/
theorem calculate_profanity_score_two_valued_witness :
    calculate_profanity_score (fun _ => false) "hello" = mkRat 1 10 ∨
    calculate_profanity_score (fun _ => false) "hello" = mkRat 8 10 :=
  (calculate_profanity_score_two_valued (fun _ => false) "hello" (by decide)).2

/-- One scored point returned by the Qdrant client: `hit.id` (already
rendered as a string), `hit.score`, and `hit.payload` (modelled as a
string-keyed map of strings; the pipeline only ever reads its
`headline` entry, as text). -/
structure Hit where
  id : String
  score : Rat
  payload : List (String × String)
deriving DecidableEq, Repr

/-- Modelled from the external Qdrant search contract, which the
repository invokes as `qdrant_client.search(collection_name=...,
query_vector=..., limit=..., score_threshold=...)`: the index returns
the stored points filtered to scores at or above `score_threshold`,
ordered by descending score, and capped at `limit` results. -/
def qdrantSearch (points : List Hit) (limit : Nat) (score_threshold : Rat) : List Hit :=
  ((List.insertionSort (fun a b => b.score ≤ a.score)
      (points.filter (fun h => decide (score_threshold ≤ h.score)))).take limit)

/-- `DetoxPipeline.find_similar_items`: map every returned hit to the
dict with keys `id`, `score`, `payload` (`str(hit.id)` and
`hit.payload or ` the empty dict are identities in this model); when
the client raises, the `except` branch logs and returns the empty
list. -/
def find_similar_items (outcome : Except Unit (List Hit)) : List Hit :=
  match outcome with
  | Except.ok hits => hits.map (fun h => ⟨h.id, h.score, h.payload⟩)
  | Except.error _ => []

instance : IsTotal Hit (fun a b => b.score ≤ a.score) :=
  ⟨fun a b => le_total b.score a.score⟩

instance : IsTrans Hit (fun a b => b.score ≤ a.score) :=
  ⟨fun _ _ _ hab hbc => le_trans hbc hab⟩

/-- Claim C6: for every similarity search invocation (the backing
index holding any family of scored points) with parameters `top_k`
and `min_score`, the sequence returned by `find_similar_items` never
contains an item with score below `min_score`, never contains more
than `top_k` items, and is ordered by descending score. -/
theorem find_similar_items_contract (points : List Hit) (top_k : Nat) (min_score : Rat) :
    (∀ it ∈ find_similar_items (Except.ok (qdrantSearch points top_k min_score)),
      min_score ≤ it.score) ∧
    (find_similar_items (Except.ok (qdrantSearch points top_k min_score))).length ≤ top_k ∧
    List.Pairwise (fun a b => b.score ≤ a.score)
      (find_similar_items (Except.ok (qdrantSearch points top_k min_score))) := by
  refine ⟨?_, ?_, ?_⟩
  · intro it hit
    rcases List.mem_map.mp hit with ⟨h, hh, rfl⟩
    have h1 := (List.take_sublist top_k _).subset hh
    have h2 := (List.perm_insertionSort (fun a b : Hit => b.score ≤ a.score) _).mem_iff.mp h1
    exact of_decide_eq_true (List.mem_filter.mp h2).2
  · calc (find_similar_items (Except.ok (qdrantSearch points top_k min_score))).length
        = (qdrantSearch points top_k min_score).length := List.length_map _ _
      _ ≤ top_k := List.length_take_le _ _
  · have hsorted : List.Pairwise (fun a b : Hit => b.score ≤ a.score)
        (qdrantSearch points top_k min_score) :=
      List.Pairwise.sublist (List.take_sublist top_k _)
        (List.sorted_insertionSort (fun a b : Hit => b.score ≤ a.score) _)
    exact (List.pairwise_map).mpr hsorted

/-- Witness for C6 at a concrete index of three points with scores
0.9, 0.3 and 0.95, `top_k = 2` and `min_score = 0.5`: the top hit
(score 0.95) is in the result and clears the threshold, and the result
length is capped at 2. -/
theorem find_similar_items_contract_witness :
    mkRat 1 2 ≤ mkRat 19 20 ∧
    (find_similar_items (Except.ok (qdrantSearch
        [⟨"a", mkRat 9 10, []⟩, ⟨"b", mkRat 3 10, []⟩, ⟨"c", mkRat 19 20, []⟩]
        2 (mkRat 1 2)))).length ≤ 2 :=
  ⟨(find_similar_items_contract
        [⟨"a", mkRat 9 10, []⟩, ⟨"b", mkRat 3 10, []⟩, ⟨"c", mkRat 19 20, []⟩]
        2 (mkRat 1 2)).1 ⟨"c", mkRat 19 20, []⟩ (by decide),
   (find_similar_items_contract
        [⟨"a", mkRat 9 10, []⟩, ⟨"b", mkRat 3 10, []⟩, ⟨"c", mkRat 19 20, []⟩]
        2 (mkRat 1 2)).2.1⟩

/-- `DetoxPipeline.embed_text`: truncate texts longer than 512
characters, then hand off to the external sentence-transformers
encoder (an oracle). -/
def embed_text (encode : String → List Rat) (text : String) : List Rat :=
  encode (if 512 < text.toList.length then pySlice text 0 512 else text)

/-- The meme task data returned by
`DetoxPipeline.generate_meme_if_needed` on success: the Celery task id
and the fixed status string "pending". -/
structure MemeData where
  task_id : String
  status : String
deriving DecidableEq, Repr

/-- `DetoxPipeline.generate_meme_if_needed`: a pure gate on the
truthiness of `analysis.get("is_sensational", False)`; when open, the
enqueue call (`generate_meme.delay`, an oracle) either yields a task
id, or raises and is converted to `None` by the `except` branch. -/
def generate_meme_if_needed (analysis : AnalysisDict)
    (enqueue : Except Unit String) : Option MemeData :=
  if pyTruthy analysis.is_sensational then
    match enqueue with
    | Except.ok tid => some ⟨tid, "pending"⟩
    | Except.error _ => none
  else none

/-- One persisted `DetoxItem` row, with the fields
`DetoxPipeline.save_to_detox_items` sets: the metadata mapping is
flattened into its two entries `key_points` and `meme_status`. -/
structure Record where
  original_text : String
  analysis : Json
  is_sensational : Json
  confidence : Rat
  entities : List EntityRec
  similar_items : List Hit
  meme_task_id : Option String
  key_points : Json
  meme_status : Option String

/-- `DetoxPipeline.save_to_detox_items`: the database is a list of
rows; a successful commit appends exactly one new row and returns its
generated identifier (its position); a failing commit rolls the
transaction back — the database is unchanged — and the exception is
re-raised. -/
def save_to_detox_items (dbWriteFails : Bool) (db : List Record)
    (row : Record) : Except Unit (List Record × Nat) :=
  if dbWriteFails then Except.error ()
  else Except.ok (db ++ [row], db.length)

/-- The external calls `DetoxPipeline.process` can issue, in order:
entity recognition, embedding, similarity search, LLM generation, meme
enqueue, and the database write. -/
inductive Call where
  | mask : Call
  | embed : Call
  | search : Call
  | llm : Call
  | meme : Call
  | persist : Call
deriving DecidableEq, Repr

/-- The errors `DetoxPipeline.process` can raise: the
`ValueError("Input text cannot be empty")` guard, and a database
write failure re-raised by `save_to_detox_items`. -/
inductive PErr where
  | invalidInput : PErr
  | persistenceFailure : PErr
deriving DecidableEq, Repr

/-- The outcomes of the external collaborators for one `process` run:
the spaCy entities recognized in the input text, the encoder, the
Qdrant search outcome for a query vector (`Except.error` when the
client raises), the combined LLM-call-and-JSON-parse outcome, the meme
enqueue outcome, and whether the database commit raises. -/
structure Env where
  ents : List Ent
  encode : String → List Rat
  searchOutcome : List Rat → Except Unit (List Hit)
  llm : LLMResult
  memeEnqueue : Except Unit String
  dbWriteFails : Bool

/-- The aggregate dict returned by `DetoxPipeline.process`. -/
structure ProcRes where
  original_text : String
  masked_text : String
  entities : List EntityRec
  similar_items : List Hit
  analysis : AnalysisDict
  meme_data : Option MemeData
  detox_item_id : Option Nat

/-- The observable outcome of one `DetoxPipeline.process` run: the
returned aggregate or the raised error, the final database state
(`none` when no session was passed), and the trace of external calls
issued. -/
structure POut where
  result : Except PErr ProcRes
  db : Option (List Record)
  calls : List Call

/-- `DetoxPipeline.process`: reject whitespace-only input before any
work; mask entities; embed the masked text; search for similar items
(degrading to the empty list on error, inside `find_similar_items`);
analyze with the LLM (degrading to the fallback dict; the meme gate
checks `generate_meme and analysis.get("is_sensational", False)`);
persist only when a database session is provided (`db` defaults to
`None` in the source), re-raising a write failure; finally return the
aggregate. -/
def process (text : String) (env : Env) (db : Option (List Record))
    (generate_meme : Bool) : POut :=
  if pyStrip text = "" then ⟨Except.error PErr.invalidInput, db, []⟩
  else
    let mr := mask_entities text env.ents
    let embedding := embed_text env.encode mr.1
    let similar_items := find_similar_items (env.searchOutcome embedding)
    let analysis := analyze_with_llm env.llm
    let memeAttempted := generate_meme && pyTruthy analysis.is_sensational
    let meme_data := if memeAttempted
      then generate_meme_if_needed analysis env.memeEnqueue else none
    let baseCalls := [Call.mask, Call.embed, Call.search, Call.llm] ++
      (if memeAttempted then [Call.meme] else [])
    let row : Record :=
      { original_text := text,
        analysis := analysis.analysis,
        is_sensational := analysis.is_sensational,
        confidence := analysis.confidence,
        entities := mr.2,
        similar_items := similar_items,
        meme_task_id := meme_data.map MemeData.task_id,
        key_points := analysis.key_points,
        meme_status := meme_data.map MemeData.status }
    match db with
    | none =>
      ⟨Except.ok ⟨text, mr.1, mr.2, similar_items, analysis, meme_data, none⟩,
       none, baseCalls⟩
    | some d =>
      match save_to_detox_items env.dbWriteFails d row with
      | Except.error _ =>
        ⟨Except.error PErr.persistenceFailure, some d, baseCalls ++ [Call.persist]⟩
      | Except.ok (d2, rid) =>
        ⟨Except.ok ⟨text, mr.1, mr.2, similar_items, analysis, meme_data, some rid⟩,
         some d2, baseCalls ++ [Call.persist]⟩

/-- Claim C3: for every input text whose whitespace-stripped form is
empty, `process` raises the invalid-input error
(`ValueError("Input text cannot be empty")`) before performing any
work: the database is untouched and the trace of external calls —
masking, embedding, search, LLM, meme, persistence — is empty. -/
theorem process_empty_input_no_side_effects (text : String) (env : Env)
    (db : Option (List Record)) (generate_meme : Bool)
    (h : pyStrip text = "") :
    process text env db generate_meme
      = ⟨Except.error PErr.invalidInput, db, []⟩ := by
  unfold process
  rw [if_pos h]

/-- Witness for C3: a two-space input, with a database session absent,
raises the invalid-input error with zero calls issued. -/
theorem process_empty_input_no_side_effects_witness :
    process "  " ⟨[], fun _ => [], fun _ => Except.error (), LLMResult.callFailed,
        Except.error (), false⟩ none true
      = ⟨Except.error PErr.invalidInput, none, []⟩ :=
  process_empty_input_no_side_effects "  "
    ⟨[], fun _ => [], fun _ => Except.error (), LLMResult.callFailed,
      Except.error (), false⟩ none true (by decide)

/-- Claim C5 (counterexample): `db` defaults to `None` in the source,
and with no session supplied a `process` call completes every stage
yet persists nothing: the `detox_item_id` of the result is `none`, no
database write happens, and the call trace has no persistence step. -/
theorem process_without_db_counterexample :
    process "hello" ⟨[], fun _ => [], fun _ => Except.error (), LLMResult.callFailed,
        Except.error (), false⟩ none true
      = ⟨Except.ok ⟨"hello", "hello", [], [], fallback_analysis, none, none⟩,
         none, [Call.mask, Call.embed, Call.search, Call.llm]⟩ := rfl

/-- Claim C5 (amended): every invocation of `process` that is given a
database session and completes stages 1–6 persists the aggregate in
one transactional unit — on commit success exactly one new row is
appended and its identifier is returned as `detox_item_id`; on a write
failure the database is unchanged (rollback, no partial writes) and
the error is re-raised — and persistence is the only stage whose
failure aborts the run: with the commit succeeding, the run returns
`Except.ok` whatever the search, LLM and meme outcomes. -/
theorem process_with_db_persists (text : String) (env : Env) (d : List Record)
    (generate_meme : Bool) (h : pyStrip text ≠ "") :
    (env.dbWriteFails = true →
      (process text env (some d) generate_meme).result
          = Except.error PErr.persistenceFailure ∧
      (process text env (some d) generate_meme).db = some d) ∧
    (env.dbWriteFails = false →
      ∃ res row,
        (process text env (some d) generate_meme).result = Except.ok res ∧
        res.detox_item_id = some d.length ∧
        (process text env (some d) generate_meme).db = some (d ++ [row])) := by
  by_cases hw : env.dbWriteFails = true
  · refine ⟨fun _ => ⟨?_, ?_⟩, fun hfalse => ?_⟩
    · simp only [process, save_to_detox_items]
      rw [if_neg h, hw]
      rfl
    · simp only [process, save_to_detox_items]
      rw [if_neg h, hw]
      rfl
    · rw [hw] at hfalse
      exact Bool.noConfusion hfalse
  · rw [Bool.not_eq_true] at hw
    refine ⟨fun htrue => ?_, fun _ => ?_⟩
    · rw [hw] at htrue
      exact Bool.noConfusion htrue
    · have hproc : process text env (some d) generate_meme =
          ⟨Except.ok ⟨text, (mask_entities text env.ents).1, (mask_entities text env.ents).2,
              find_similar_items (env.searchOutcome
                (embed_text env.encode (mask_entities text env.ents).1)),
              analyze_with_llm env.llm,
              (if generate_meme && pyTruthy (analyze_with_llm env.llm).is_sensational
                then generate_meme_if_needed (analyze_with_llm env.llm) env.memeEnqueue
                else none),
              some d.length⟩,
            some (d ++ [⟨text, (analyze_with_llm env.llm).analysis,
              (analyze_with_llm env.llm).is_sensational,
              (analyze_with_llm env.llm).confidence,
              (mask_entities text env.ents).2,
              find_similar_items (env.searchOutcome
                (embed_text env.encode (mask_entities text env.ents).1)),
              Option.map MemeData.task_id
                (if generate_meme && pyTruthy (analyze_with_llm env.llm).is_sensational
                  then generate_meme_if_needed (analyze_with_llm env.llm) env.memeEnqueue
                  else none),
              (analyze_with_llm env.llm).key_points,
              Option.map MemeData.status
                (if generate_meme && pyTruthy (analyze_with_llm env.llm).is_sensational
                  then generate_meme_if_needed (analyze_with_llm env.llm) env.memeEnqueue
                  else none)⟩]),
            ([Call.mask, Call.embed, Call.search, Call.llm] ++
              (if generate_meme && pyTruthy (analyze_with_llm env.llm).is_sensational
                then [Call.meme] else [])) ++ [Call.persist]⟩ := by
        simp only [process, save_to_detox_items]
        rw [if_neg h, hw]
        rfl
      exact ⟨_, _, by rw [hproc], rfl, by rw [hproc]⟩

/-- Witness for C5 (amended): "hello" processed with a session over
the empty database and a succeeding commit yields a persisted row with
identifier 0 returned as `detox_item_id`. -/
theorem process_with_db_persists_witness :
    ∃ res row,
      (process "hello" ⟨[], fun _ => [], fun _ => Except.error (),
          LLMResult.callFailed, Except.error (), false⟩ (some []) true).result
        = Except.ok res ∧
      res.detox_item_id = some 0 ∧
      (process "hello" ⟨[], fun _ => [], fun _ => Except.error (),
          LLMResult.callFailed, Except.error (), false⟩ (some []) true).db
        = some [row] :=
  (process_with_db_persists "hello"
    ⟨[], fun _ => [], fun _ => Except.error (), LLMResult.callFailed,
      Except.error (), false⟩ [] true (by decide)).2 rfl

/-- Claim C7: when the backing similarity index raises,
`find_similar_items` returns the empty sequence instead of propagating
the error, and `process` still returns a complete result whose
`similar_items` is empty and still reaches the persistence step. -/
theorem process_search_failure_degrades (text : String) (env : Env)
    (d : List Record) (generate_meme : Bool)
    (h : pyStrip text ≠ "")
    (hsearch : ∀ v, env.searchOutcome v = Except.error ())
    (hdb : env.dbWriteFails = false) :
    find_similar_items (Except.error () : Except Unit (List Hit)) = [] ∧
    ∃ res,
      (process text env (some d) generate_meme).result = Except.ok res ∧
      res.similar_items = [] ∧
      Call.persist ∈ (process text env (some d) generate_meme).calls := by
  have hproc : process text env (some d) generate_meme =
      ⟨Except.ok ⟨text, (mask_entities text env.ents).1, (mask_entities text env.ents).2,
          [], analyze_with_llm env.llm,
          (if generate_meme && pyTruthy (analyze_with_llm env.llm).is_sensational
            then generate_meme_if_needed (analyze_with_llm env.llm) env.memeEnqueue
            else none),
          some d.length⟩,
        some (d ++ [⟨text, (analyze_with_llm env.llm).analysis,
          (analyze_with_llm env.llm).is_sensational,
          (analyze_with_llm env.llm).confidence,
          (mask_entities text env.ents).2, [],
          Option.map MemeData.task_id
            (if generate_meme && pyTruthy (analyze_with_llm env.llm).is_sensational
              then generate_meme_if_needed (analyze_with_llm env.llm) env.memeEnqueue
              else none),
          (analyze_with_llm env.llm).key_points,
          Option.map MemeData.status
            (if generate_meme && pyTruthy (analyze_with_llm env.llm).is_sensational
              then generate_meme_if_needed (analyze_with_llm env.llm) env.memeEnqueue
              else none)⟩]),
        ([Call.mask, Call.embed, Call.search, Call.llm] ++
          (if generate_meme && pyTruthy (analyze_with_llm env.llm).is_sensational
            then [Call.meme] else [])) ++ [Call.persist]⟩ := by
    simp only [process, save_to_detox_items]
    rw [if_neg h, hdb, hsearch]
    rfl
  exact ⟨rfl, _, by rw [hproc], rfl,
    by rw [hproc]; exact List.mem_append.mpr (Or.inr (List.mem_singleton.mpr rfl))⟩

/-- Witness for C7: with an always-failing index, "hello" still
processes to a successful result with no similar items, and the
persistence call appears in the trace. -/
theorem process_search_failure_degrades_witness :
    find_similar_items (Except.error () : Except Unit (List Hit)) = [] ∧
    ∃ res,
      (process "hello" ⟨[], fun _ => [], fun _ => Except.error (),
          LLMResult.callFailed, Except.error (), false⟩ (some []) true).result
        = Except.ok res ∧
      res.similar_items = [] ∧
      Call.persist ∈ (process "hello" ⟨[], fun _ => [], fun _ => Except.error (),
          LLMResult.callFailed, Except.error (), false⟩ (some []) true).calls :=
  process_search_failure_degrades "hello"
    ⟨[], fun _ => [], fun _ => Except.error (), LLMResult.callFailed,
      Except.error (), false⟩ [] true (by decide) (fun _ => rfl) rfl

end Zeitwise
